import Mathlib

/-!
Shallow embedding of the `big_query` repository: a convenience layer over a
cloud data-warehouse client.  The embedding covers:

* `src/config/config.py` — the `Config` singleton and `cfg_item`;
* `src/table.py` — the configuration-only `Table` descriptor (`SrcTable` here);
* `src/bigquery/table.py` — the override/caching `Table` descriptor (`BQTable` here);
* `src/bigquery.py` — the `BigQuery` warehouse wrapper.

Python values flowing through the configuration store are modelled by a small
`Json` type; Python exceptions by `PyError`; remote interactions by an
environment (`Remote`) of response functions together with a trace of
`RemoteCall`s emitted by each wrapper operation.
-/

namespace BigQuerySpec

/-- JSON-like values as loaded by `json.load` and stored in `Config.data`.
`null` never occurs in the configurations the claims are about, so it is
omitted. -/
inductive Json where
  | str (s : String)
  | num (n : Int)
  | bool (b : Bool)
  | arr (xs : List Json)
  | obj (fields : List (String × Json))

/-- Python equality `v == s` between a configuration value and a string
literal (as in `column['type'] == 'DATE'`): true exactly when `v` is that
string; a value of any other shape compares unequal. -/
def Json.eqStr : Json → String → Bool
  | Json.str t, s => t = s
  | _, _ => false

/-- Python exceptions relevant to this repository. `usageError` is the
`Exception("Config solo se puede instanciar una vez")`; `fileError` stands for
a failure of `open`/`json.load`; `keyError`/`typeError`/`attributeError` are
the builtin Python exceptions of those names; `notFoundError` is
`google.cloud.exceptions.NotFound`; `remoteError` is any other exception
raised by the vendor client; `parseError` is the error `pd.to_datetime`
raises on an unparseable value. -/
inductive PyError where
  | usageError
  | fileError
  | keyError (k : String)
  | typeError (msg : String)
  | attributeError (name : String)
  | notFoundError
  | remoteError (msg : String)
  | parseError (s : String)
deriving DecidableEq, Repr

/-- Python subscripting `data[key]` with a string key, as used by `cfg_item`
and by the schema loops (`column['name']`, `column['type']`): on a dict it is
an association lookup raising `KeyError` when the key is absent; on any other
value a string subscript raises `TypeError`. -/
def pyIndex : Json → String → Except PyError Json
  | Json.obj fields, key =>
      match fields.lookup key with
      | some v => Except.ok v
      | none => Except.error (PyError.keyError key)
  | Json.arr _, key => Except.error (PyError.typeError key)
  | Json.str _, key => Except.error (PyError.typeError key)
  | Json.num _, key => Except.error (PyError.typeError key)
  | Json.bool _, key => Except.error (PyError.typeError key)

/-- Python iteration `for column in schema`: an array yields its elements, a
dict yields its keys, anything else raises `TypeError` (string iteration
yields characters, which the schema loops would immediately subscript and
fail on; it is folded into the `TypeError` case). -/
def pyIter : Json → Except PyError (List Json)
  | Json.arr xs => Except.ok xs
  | Json.obj fields => Except.ok (fields.map (fun f => Json.str f.1))
  | Json.str s => Except.error (PyError.typeError s)
  | Json.num _ => Except.error (PyError.typeError "num")
  | Json.bool _ => Except.error (PyError.typeError "bool")

/-- The `Config` instance object: `__config_json_filename`, the `data`
attribute (absent, i.e. `none`, when `json.load` never ran), and the
`__debug` flag (likewise absent until set). -/
structure ConfigInst where
  config_json_filename : String
  data : Option Json
  debug : Option Bool

/-- The class-level singleton slot `Config.__instance`. -/
structure ConfigState where
  slot : Option ConfigInst

/-- The file system visible to `Config.__init__`: maps a configuration file
name to the parsed JSON document, or `none` when opening or parsing the file
fails. (The `os.path.join(self.__config_dir, ...)` prefix is constant and is
absorbed into this map.) -/
def FileSys : Type := String → Option Json

/-- `Config.__init__`: records the filename, then — only if the singleton
slot is empty — installs `self` in the slot BEFORE reading the backing file,
then loads the file into `self.data` and sets `__debug = False`.  A failing
file read leaves the slot filled with the data-less instance and the
exception propagates.  If the slot is already filled, raises the usage
error and leaves the slot untouched. -/
def Config.init (st : ConfigState) (config_json_filename : String) (fs : FileSys) :
    ConfigState × Except PyError Unit :=
  match st.slot with
  | none =>
      match fs config_json_filename with
      | some doc =>
          ({ slot := some { config_json_filename := config_json_filename,
                            data := some doc, debug := some false } },
           Except.ok ())
      | none =>
          ({ slot := some { config_json_filename := config_json_filename,
                            data := none, debug := none } },
           Except.error PyError.fileError)
  | some _ => (st, Except.error PyError.usageError)

/-- `Config.instance()`: returns the installed instance, constructing one
with the default filename `"config.json"` when the slot is empty; an
exception raised by that construction propagates (the slot may nevertheless
have been filled). -/
def Config.getInstance (st : ConfigState) (fs : FileSys) :
    ConfigState × Except PyError ConfigInst :=
  match st.slot with
  | some inst => (st, Except.ok inst)
  | none =>
      match Config.init st "config.json" fs with
      | (st', Except.ok _) =>
          match st'.slot with
          | some inst => (st', Except.ok inst)
          | none => (st', Except.error (PyError.remoteError "unreachable"))
      | (st', Except.error e) => (st', Except.error e)

/-- Nested traversal `for key in items: data = data[key]` of `cfg_item`. -/
def jsonGet : Json → List String → Except PyError Json
  | doc, [] => Except.ok doc
  | doc, key :: rest =>
      match pyIndex doc key with
      | Except.ok v => jsonGet v rest
      | Except.error e => Except.error e

/-- The ambient mutable state threaded through every operation that may touch
the configuration singleton: the singleton slot, the file system, and a count
of `cfg_item` invocations (instrumentation used to state the laziness and
caching claims; the count is not part of the Python program). -/
structure World where
  cfg : ConfigState
  fs : FileSys
  lookups : Nat

/-- `cfg_item(*items)`: obtains the singleton instance (constructing it on
first use), reads its `data` attribute (an `AttributeError` if the instance
was installed by a failed construction), and traverses the given key path. -/
def cfg_item (w : World) (items : List String) : World × Except PyError Json :=
  match Config.getInstance w.cfg w.fs with
  | (st', Except.ok inst) =>
      match inst.data with
      | some doc =>
          ({ w with cfg := st', lookups := w.lookups + 1 }, jsonGet doc items)
      | none =>
          ({ w with cfg := st', lookups := w.lookups + 1 },
           Except.error (PyError.attributeError "data"))
  | (st', Except.error e) =>
      ({ w with cfg := st', lookups := w.lookups + 1 }, Except.error e)

/-! ## `src/bigquery/table.py`: the override/caching `Table` descriptor -/

/-- The `Table` class of `src/bigquery/table.py`.  Each attribute slot is
`Option (Option Json)`: `none` means the attribute was never set (reading it
raises `AttributeError`), `some none` means it holds Python `None`, and
`some (some v)` means it holds the value `v`.  `__init__` assigns
`table_name`, `table_id`, `schema` and `location` but never `dataset_id`;
`attr_columns` additionally installs one dynamic attribute per schema column
(collected in `others` unless the column name collides with a named slot). -/
structure BQTable where
  table_name : String
  table_id : Option (Option Json)
  schema : Option (Option Json)
  location : Option (Option Json)
  dataset_id : Option (Option Json)
  others : List (String × String)

/-- `setattr(self, column_name, column_name)` as performed by
`attr_columns`: the attribute named by the column is set to the column name
itself; a name colliding with one of the declared slots overwrites that
slot. -/
def BQTable.setAttr (t : BQTable) (attr : String) : BQTable :=
  if attr = "table_name" then { t with table_name := attr }
  else if attr = "table_id" then { t with table_id := some (some (Json.str attr)) }
  else if attr = "schema" then { t with schema := some (some (Json.str attr)) }
  else if attr = "location" then { t with location := some (some (Json.str attr)) }
  else if attr = "dataset_id" then { t with dataset_id := some (some (Json.str attr)) }
  else { t with others := t.others ++ [(attr, attr)] }

/-- `Table.get_table_id` (`src/bigquery/table.py`): `if self.table_id is
None: self.table_id = cfg_item('data', 'tables', self.table_name,
'table_id'); return self.table_id`. -/
def BQTable.get_table_id (w : World) (t : BQTable) :
    World × BQTable × Except PyError Json :=
  match t.table_id with
  | none => (w, t, Except.error (PyError.attributeError "table_id"))
  | some (some v) => (w, t, Except.ok v)
  | some none =>
      match cfg_item w ["data", "tables", t.table_name, "table_id"] with
      | (w', Except.ok v) => (w', { t with table_id := some (some v) }, Except.ok v)
      | (w', Except.error e) => (w', t, Except.error e)

/-- `Table.get_dataset_id` (`src/bigquery/table.py`): `if self.dataset_id is
None: self.dataset_id = cfg_item('data', 'dataset_id'); return
self.dataset_id`.  Note `__init__` never assigns `self.dataset_id`, so the
initial read of the attribute raises `AttributeError` unless a dynamic
column attribute happened to create it. -/
def BQTable.get_dataset_id (w : World) (t : BQTable) :
    World × BQTable × Except PyError Json :=
  match t.dataset_id with
  | none => (w, t, Except.error (PyError.attributeError "dataset_id"))
  | some (some v) => (w, t, Except.ok v)
  | some none =>
      match cfg_item w ["data", "dataset_id"] with
      | (w', Except.ok v) => (w', { t with dataset_id := some (some v) }, Except.ok v)
      | (w', Except.error e) => (w', t, Except.error e)

/-- `Table.get_table_schema` (`src/bigquery/table.py`): `if self.schema is
None: self.schema = cfg_item('data', 'tables', self.table_name, 'schema');
return self.schema`. -/
def BQTable.get_table_schema (w : World) (t : BQTable) :
    World × BQTable × Except PyError Json :=
  match t.schema with
  | none => (w, t, Except.error (PyError.attributeError "schema"))
  | some (some v) => (w, t, Except.ok v)
  | some none =>
      match cfg_item w ["data", "tables", t.table_name, "schema"] with
      | (w', Except.ok v) => (w', { t with schema := some (some v) }, Except.ok v)
      | (w', Except.error e) => (w', t, Except.error e)

/-- `Table.get_location` (`src/bigquery/table.py`): `if self.location is
None: self.location = cfg_item('data', 'location'); return self.location`. -/
def BQTable.get_location (w : World) (t : BQTable) :
    World × BQTable × Except PyError Json :=
  match t.location with
  | none => (w, t, Except.error (PyError.attributeError "location"))
  | some (some v) => (w, t, Except.ok v)
  | some none =>
      match cfg_item w ["data", "location"] with
      | (w', Except.ok v) => (w', { t with location := some (some v) }, Except.ok v)
      | (w', Except.error e) => (w', t, Except.error e)

/-- The loop body of `attr_columns`: `for column in schema: column_name =
column['name']; setattr(self, column_name, column_name)`.  A column whose
`name` entry is not a string makes `setattr` raise `TypeError`. -/
def BQTable.attr_columns_loop (t : BQTable) : List Json → Except PyError BQTable
  | [] => Except.ok t
  | col :: rest =>
      match pyIndex col "name" with
      | Except.ok (Json.str s) => BQTable.attr_columns_loop (t.setAttr s) rest
      | Except.ok _ => Except.error (PyError.typeError "attribute name must be string")
      | Except.error e => Except.error e

/-- `Table.attr_columns` (`src/bigquery/table.py`): reads the table schema
(resolving it from configuration if unset) and installs one dynamic
attribute per column. -/
def BQTable.attr_columns (w : World) (t : BQTable) :
    World × Except PyError BQTable :=
  match BQTable.get_table_schema w t with
  | (w', t', Except.ok schemaVal) =>
      match pyIter schemaVal with
      | Except.ok cols => (w', BQTable.attr_columns_loop t' cols)
      | Except.error e => (w', Except.error e)
  | (w', _, Except.error e) => (w', Except.error e)

/-- `Table.__init__` (`src/bigquery/table.py`): stores the name and the three
optional overrides (`None` when not supplied), then calls
`self.attr_columns()`. -/
def BQTable.init (w : World) (table_name : String)
    (table_id : Option Json) (schema : Option Json) (location : Option Json) :
    World × Except PyError BQTable :=
  BQTable.attr_columns w
    { table_name := table_name, table_id := some table_id,
      schema := some schema, location := some location,
      dataset_id := none, others := [] }

/-- The loop of `get_date_columns`, identical in `src/table.py` and
`src/bigquery/table.py`: `for column in schema: if column['type'] ==
'DATE': date_columns.append(column['name'])`. -/
def date_columns_loop : List Json → Except PyError (List Json)
  | [] => Except.ok []
  | col :: rest =>
      match pyIndex col "type" with
      | Except.ok ty =>
          if ty.eqStr "DATE" then
            match pyIndex col "name" with
            | Except.ok n =>
                match date_columns_loop rest with
                | Except.ok ns => Except.ok (n :: ns)
                | Except.error e => Except.error e
            | Except.error e => Except.error e
          else date_columns_loop rest
      | Except.error e => Except.error e

/-- `Table.get_date_columns` (`src/bigquery/table.py`): reads the schema via
`get_table_schema` and collects the names of the `DATE`-typed columns. -/
def BQTable.get_date_columns (w : World) (t : BQTable) :
    World × BQTable × Except PyError (List Json) :=
  match BQTable.get_table_schema w t with
  | (w', t', Except.ok schemaVal) =>
      match pyIter schemaVal with
      | Except.ok cols => (w', t', date_columns_loop cols)
      | Except.error e => (w', t', Except.error e)
  | (w', t', Except.error e) => (w', t', Except.error e)

/-! ## `src/table.py`: the configuration-only `Table` descriptor -/

/-- The `Table` class of `src/table.py`: stores only the table name (plus the
dynamic column attributes installed by its `attr_columns`, which none of its
methods read back). Every accessor goes straight to `cfg_item` with no
caching and no overrides. -/
structure SrcTable where
  table_name : String
  others : List (String × String)

/-- `Table.get_table_id` (`src/table.py`). -/
def SrcTable.get_table_id (w : World) (t : SrcTable) : World × Except PyError Json :=
  cfg_item w ["data", "tables", t.table_name, "table_id"]

/-- `Table.get_dataset_id` (`src/table.py`). -/
def SrcTable.get_dataset_id (w : World) (_t : SrcTable) : World × Except PyError Json :=
  cfg_item w ["data", "dataset_id"]

/-- `Table.get_table_schema` (`src/table.py`). -/
def SrcTable.get_table_schema (w : World) (t : SrcTable) : World × Except PyError Json :=
  cfg_item w ["data", "tables", t.table_name, "schema"]

/-- `Table.get_location` (`src/table.py`). -/
def SrcTable.get_location (w : World) (_t : SrcTable) : World × Except PyError Json :=
  cfg_item w ["data", "location"]

/-- `Table.get_date_columns` (`src/table.py`): same loop as the
`src/bigquery/table.py` variant, over the uncached schema. -/
def SrcTable.get_date_columns (w : World) (t : SrcTable) :
    World × Except PyError (List Json) :=
  match SrcTable.get_table_schema w t with
  | (w', Except.ok schemaVal) =>
      match pyIter schemaVal with
      | Except.ok cols => (w', date_columns_loop cols)
      | Except.error e => (w', Except.error e)
  | (w', Except.error e) => (w', Except.error e)

/-! ## Tabular data and `transform_date_time` -/

/-- One value of a dataframe column: a raw string as loaded from the source
data, or an already date/time-typed value (`datetime64`, abstracted as an
integer timestamp). -/
inductive Cell where
  | strVal (s : String)
  | dtVal (ts : Int)
deriving DecidableEq, Repr

/-- An in-memory tabular dataset with named columns (the `pd.DataFrame`
boundary): an ordered association of column name to column values. -/
abbrev DataFrame : Type := List (String × List Cell)

/-- Column read `df[column]`: raises `KeyError` when the column is absent. -/
def DataFrame.getCol (df : DataFrame) (c : String) : Except PyError (List Cell) :=
  match df.lookup c with
  | some cells => Except.ok cells
  | none => Except.error (PyError.keyError c)

/-- Column write `df[column] = series`: replaces the values of every column
bearing that name, in place. -/
def DataFrame.setCol (df : DataFrame) (c : String) (cells : List Cell) : DataFrame :=
  df.map (fun col => if col.1 = c then (c, cells) else col)

/-- `pd.to_datetime` applied to one column, parameterised by the date parser
`p` (the library's date grammar is external): a string value is parsed (an
unparseable one raises), an already date/time-typed value passes through
unchanged. -/
def to_datetime (p : String → Option Int) : List Cell → Except PyError (List Cell)
  | [] => Except.ok []
  | Cell.strVal s :: rest =>
      match p s with
      | some d =>
          match to_datetime p rest with
          | Except.ok cells => Except.ok (Cell.dtVal d :: cells)
          | Except.error e => Except.error e
      | none => Except.error (PyError.parseError s)
  | Cell.dtVal d :: rest =>
      match to_datetime p rest with
      | Except.ok cells => Except.ok (Cell.dtVal d :: cells)
      | Except.error e => Except.error e

/-- `Table.transform_date_time(df, date_columns)`, identical in
`src/table.py` and `src/bigquery/table.py` (`self` is unused): `for column
in date_columns: df[column] = pd.to_datetime(df[column]); return df`. -/
def transform_date_time (p : String → Option Int) (df : DataFrame) :
    List String → Except PyError DataFrame
  | [] => Except.ok df
  | c :: rest =>
      match DataFrame.getCol df c with
      | Except.ok cells =>
          match to_datetime p cells with
          | Except.ok cells' => transform_date_time p (DataFrame.setCol df c cells') rest
          | Except.error e => Except.error e
      | Except.error e => Except.error e

/-! ## `src/bigquery.py`: the `BigQuery` warehouse wrapper -/

/-- Outcome of a remote metadata lookup (`client.get_table` /
`client.get_dataset`): the resource is found, the service signals
`NotFound`, or the call fails with any other exception. -/
inductive LookupResult where
  | found
  | notFound
  | failure (msg : String)

/-- The vendor `WriteDisposition` enumeration (only the first two are ever
selected by this repository). -/
inductive WriteDisposition where
  | WRITE_APPEND
  | WRITE_EMPTY
  | WRITE_TRUNCATE
deriving DecidableEq, Repr

/-- `bigquery.LoadJobConfig(schema=..., write_disposition=...)`. -/
structure LoadJobConfig where
  schema : Json
  write_disposition : WriteDisposition

/-- The remote warehouse service as an environment of responses: what the
metadata lookups answer, and how dataset creation and the submitted load job
turn out. -/
structure Remote where
  getTable : Json → LookupResult
  getDataset : Json → LookupResult
  createDataset : Json → String → Except PyError Unit
  loadResult : DataFrame → Json → LoadJobConfig → Except PyError Unit

/-- One remote call emitted by a wrapper operation; operations return the
trace of their remote calls so that frame claims (no remote call) and
effect claims (a dataset was created at some location) can be stated. -/
inductive RemoteCall where
  | getTableCall (table_id : Json)
  | getDatasetCall (dataset_id : Json)
  | createDatasetCall (dataset_id : Json) (location : String)
  | loadCall (data : DataFrame) (table_id : Json) (cfg : LoadJobConfig)

/-- `bigquery.Table(table_id, schema=schema)`: the local table object
constructed (and immediately discarded) by `BigQuery.create_table`. -/
structure BQNativeTable where
  table_id : Json
  schema : Json

/-- `BigQuery.create_table`: constructs a local `bigquery.Table` object,
binds it to a local variable, and returns `None` — no client method is
invoked and nothing is retained. -/
def BigQuery.create_table (remote : Remote) (table_id : Json) (schema : Json) :
    Remote × List RemoteCall × Unit :=
  let _table := BQNativeTable.mk table_id schema
  (remote, [], ())

/-- `BigQuery.check_table_exists`: `try: client.get_table(table_id);
tabla_existe = True; except NotFound: tabla_existe = False; return
tabla_existe` — only the `NotFound` signal is caught; any other failure
propagates. -/
def BigQuery.check_table_exists (remote : Remote) (table_id : Json) :
    List RemoteCall × Except PyError Bool :=
  ([RemoteCall.getTableCall table_id],
   match remote.getTable table_id with
   | LookupResult.found => Except.ok true
   | LookupResult.notFound => Except.ok false
   | LookupResult.failure msg => Except.error (PyError.remoteError msg))

/-- `BigQuery.job_config`: selects `WRITE_APPEND` when
`check_table_exists(table_id)` is true and `WRITE_EMPTY` when it is false;
a failure of the existence check propagates. -/
def BigQuery.job_config (remote : Remote) (schema : Json) (table_id : Json) :
    List RemoteCall × Except PyError LoadJobConfig :=
  match BigQuery.check_table_exists remote table_id with
  | (tr, Except.ok true) =>
      (tr, Except.ok { schema := schema,
                       write_disposition := WriteDisposition.WRITE_APPEND })
  | (tr, Except.ok false) =>
      (tr, Except.ok { schema := schema,
                       write_disposition := WriteDisposition.WRITE_EMPTY })
  | (tr, Except.error e) => (tr, Except.error e)

/-- `BigQuery.load_data_to_bigquery`: resolves dataset id and table id from
the descriptor (the `src/table.py` one — that is the class `src/bigquery.py`
imports), probes the dataset and creates it with `location = "US"` when the
probe signals `NotFound`, computes the job configuration, submits the load
job and awaits `load_job.result()`. -/
def BigQuery.load_data_to_bigquery (w : World) (remote : Remote)
    (data : DataFrame) (table : SrcTable) :
    World × List RemoteCall × Except PyError Unit :=
  match SrcTable.get_dataset_id w table with
  | (w1, Except.error e) => (w1, [], Except.error e)
  | (w1, Except.ok dataset_id) =>
    match SrcTable.get_table_id w1 table with
    | (w2, Except.error e) => (w2, [], Except.error e)
    | (w2, Except.ok table_id) =>
      let proceed : World → List RemoteCall → World × List RemoteCall × Except PyError Unit :=
        fun w' tr =>
          match SrcTable.get_table_schema w' table with
          | (w3, Except.error e) => (w3, tr, Except.error e)
          | (w3, Except.ok schemaVal) =>
              match BigQuery.job_config remote schemaVal table_id with
              | (jcTr, Except.error e) => (w3, tr ++ jcTr, Except.error e)
              | (jcTr, Except.ok cfg) =>
                  (w3, tr ++ jcTr ++ [RemoteCall.loadCall data table_id cfg],
                   remote.loadResult data table_id cfg)
      match remote.getDataset dataset_id with
      | LookupResult.found => proceed w2 [RemoteCall.getDatasetCall dataset_id]
      | LookupResult.failure msg =>
          (w2, [RemoteCall.getDatasetCall dataset_id],
           Except.error (PyError.remoteError msg))
      | LookupResult.notFound =>
          let tr := [RemoteCall.getDatasetCall dataset_id,
                     RemoteCall.createDatasetCall dataset_id "US"]
          match remote.createDataset dataset_id "US" with
          | Except.error e => (w2, tr, Except.error e)
          | Except.ok _ => proceed w2 tr

/-! ## Well-formed schema fields, and concrete fixtures used by witnesses -/

/-- A well-formed schema field descriptor as the configuration file declares
it (§6 of the documentation): `name`, `type`, `mode`, optional
`description`. -/
structure SchemaFieldR where
  name : String
  type : String
  mode : String
  description : Option String

/-- The JSON object a well-formed schema field occupies in the
configuration: keys `name`, `type`, `mode`, and `description` when
present. -/
def SchemaFieldR.toJson (f : SchemaFieldR) : Json :=
  Json.obj ([("name", Json.str f.name), ("type", Json.str f.type),
             ("mode", Json.str f.mode)] ++
    (match f.description with
     | some d => [("description", Json.str d)]
     | none => []))

/-- A cell `pd.to_datetime` can convert: a string the date parser accepts,
or an already date/time-typed value. -/
def Parseable (p : String → Option Int) : Cell → Prop
  | Cell.strVal s => ∃ d, p s = some d
  | Cell.dtVal _ => True

/-- The schema of the `events` table in the documentation's §8 scenario. -/
def eventsFields : List SchemaFieldR :=
  [{ name := "ts", type := "DATE", mode := "NULLABLE", description := none },
   { name := "val", type := "FLOAT", mode := "NULLABLE", description := none }]

/-- The §8 scenario configuration document, with the location made a
parameter (the scenario itself uses `"US"`; the dataset-creation claim is
exercised with a different location to show it is ignored). -/
def scenarioDocAt (loc : String) : Json :=
  Json.obj [("data", Json.obj
    [("dataset_id", Json.str "ds1"),
     ("location", Json.str loc),
     ("tables", Json.obj
       [("events", Json.obj
         [("table_id", Json.str "proj.ds1.events"),
          ("schema", Json.arr (eventsFields.map SchemaFieldR.toJson))])])])]

/-- The §8 scenario document proper (location `"US"`). -/
def scenarioDoc : Json := scenarioDocAt "US"

/-- A world whose configuration singleton is already initialised with the
given document and in which no `cfg_item` call has happened yet. -/
def worldWith (doc : Json) : World :=
  { cfg := { slot := some { config_json_filename := "config.json",
                            data := some doc, debug := some false } },
    fs := fun _ => some doc,
    lookups := 0 }

/-- The §8 scenario world. -/
def scenarioWorld : World := worldWith scenarioDoc

/-- The descriptor `Table('events')` of `src/table.py` (its dynamic column
attributes `ts`/`val` installed by `attr_columns`). -/
def srcEvents : SrcTable := { table_name := "events", others := [("ts", "ts"), ("val", "val")] }

/-- The state of the `src/bigquery/table.py` descriptor `Table('events')`
right after `__init__` under the §8 scenario configuration: the overrides
are `None`, the schema has already been resolved and cached by
`attr_columns`, `dataset_id` was never assigned, and the two dynamic column
attributes are installed. -/
def eventsTableAfterInit : BQTable :=
  { table_name := "events",
    table_id := some none,
    schema := some (some (Json.arr (eventsFields.map SchemaFieldR.toJson))),
    location := some none,
    dataset_id := none,
    others := [("ts", "ts"), ("val", "val")] }

/-- A remote service on which every metadata lookup answers "found". -/
def remoteFound : Remote :=
  { getTable := fun _ => LookupResult.found,
    getDataset := fun _ => LookupResult.found,
    createDataset := fun _ _ => Except.ok (),
    loadResult := fun _ _ _ => Except.ok () }

/-- A remote service on which every metadata lookup signals `NotFound` and
creation/loading succeed. -/
def remoteNotFound : Remote :=
  { getTable := fun _ => LookupResult.notFound,
    getDataset := fun _ => LookupResult.notFound,
    createDataset := fun _ _ => Except.ok (),
    loadResult := fun _ _ _ => Except.ok () }

/-- A remote service on which every metadata lookup fails with a quota
error. -/
def remoteFailing : Remote :=
  { getTable := fun _ => LookupResult.failure "quota",
    getDataset := fun _ => LookupResult.failure "quota",
    createDataset := fun _ _ => Except.error (PyError.remoteError "quota"),
    loadResult := fun _ _ _ => Except.error (PyError.remoteError "quota") }

/-- A one-element date parser accepting exactly `"2024-01-01"`, used by the
`transform_date_time` witness. -/
def sampleParser : String → Option Int :=
  fun s => if s = "2024-01-01" then some 19723 else none

/-! ## Theorems -/

/-- C4: `check_table_exists` returns true when the remote lookup finds the
table, false when the lookup signals not-found, and propagates every other
failure; its single remote interaction is the `get_table` probe, so the
not-found signal is converted to a boolean exactly at this boundary. -/
theorem check_table_exists_not_found_boundary (remote : Remote) (table_id : Json) :
    (BigQuery.check_table_exists remote table_id).1 = [RemoteCall.getTableCall table_id]
  ∧ (remote.getTable table_id = LookupResult.found →
      (BigQuery.check_table_exists remote table_id).2 = Except.ok true)
  ∧ (remote.getTable table_id = LookupResult.notFound →
      (BigQuery.check_table_exists remote table_id).2 = Except.ok false)
  ∧ (∀ msg, remote.getTable table_id = LookupResult.failure msg →
      (BigQuery.check_table_exists remote table_id).2 =
        Except.error (PyError.remoteError msg)) := by
  refine ⟨rfl, ?_, ?_, ?_⟩
  · intro h; simp [BigQuery.check_table_exists, h]
  · intro h; simp [BigQuery.check_table_exists, h]
  · intro msg h; simp [BigQuery.check_table_exists, h]

/-- Witness for C4: the three outcomes at a concrete table id on three
concrete remotes. -/
theorem check_table_exists_not_found_boundary_witness :
    (BigQuery.check_table_exists remoteFound (Json.str "proj.ds1.events")).2 = Except.ok true
  ∧ (BigQuery.check_table_exists remoteNotFound (Json.str "proj.ds1.events")).2 = Except.ok false
  ∧ (BigQuery.check_table_exists remoteFailing (Json.str "proj.ds1.events")).2 =
      Except.error (PyError.remoteError "quota") :=
  ⟨(check_table_exists_not_found_boundary remoteFound (Json.str "proj.ds1.events")).2.1 rfl,
   (check_table_exists_not_found_boundary remoteNotFound (Json.str "proj.ds1.events")).2.2.1 rfl,
   (check_table_exists_not_found_boundary remoteFailing (Json.str "proj.ds1.events")).2.2.2
     "quota" rfl⟩

/-- C1: `job_config` returns a load-job configuration carrying the given
schema, with `WRITE_APPEND` when the existence check for the table id is
true and `WRITE_EMPTY` when it is false; every successfully returned
configuration carries one of these two dispositions and no other. -/
theorem job_config_write_disposition (remote : Remote) (schema table_id : Json) :
    (∀ b, (BigQuery.check_table_exists remote table_id).2 = Except.ok b →
       (BigQuery.job_config remote schema table_id).2 =
         Except.ok { schema := schema,
                     write_disposition :=
                       if b then WriteDisposition.WRITE_APPEND
                       else WriteDisposition.WRITE_EMPTY })
  ∧ (∀ cfg, (BigQuery.job_config remote schema table_id).2 = Except.ok cfg →
       cfg.schema = schema ∧
       (cfg.write_disposition = WriteDisposition.WRITE_APPEND ∨
        cfg.write_disposition = WriteDisposition.WRITE_EMPTY)) := by
  constructor
  · intro b hb
    cases hg : remote.getTable table_id with
    | found =>
        simp [BigQuery.check_table_exists, hg] at hb
        subst hb
        simp [BigQuery.job_config, BigQuery.check_table_exists, hg]
    | notFound =>
        simp [BigQuery.check_table_exists, hg] at hb
        subst hb
        simp [BigQuery.job_config, BigQuery.check_table_exists, hg]
    | failure msg =>
        simp [BigQuery.check_table_exists, hg] at hb
  · intro cfg hcfg
    cases hg : remote.getTable table_id <;>
      simp [BigQuery.job_config, BigQuery.check_table_exists, hg] at hcfg <;>
      simp [← hcfg]

/-- Witness for C1: on a remote where the table exists the selected
disposition is `WRITE_APPEND`, and on one where it does not it is
`WRITE_EMPTY`. -/
theorem job_config_write_disposition_witness :
    (BigQuery.job_config remoteFound (Json.str "s") (Json.str "t")).2 =
      Except.ok { schema := Json.str "s",
                  write_disposition := WriteDisposition.WRITE_APPEND }
  ∧ (BigQuery.job_config remoteNotFound (Json.str "s") (Json.str "t")).2 =
      Except.ok { schema := Json.str "s",
                  write_disposition := WriteDisposition.WRITE_EMPTY } := by
  constructor
  · have h := (job_config_write_disposition remoteFound (Json.str "s") (Json.str "t")).1 true rfl
    simpa using h
  · have h := (job_config_write_disposition remoteNotFound (Json.str "s") (Json.str "t")).1 false rfl
    simpa using h

/-- C9: `create_table` constructs a local table object, discards it and
returns `None`: it emits no remote call and leaves the client session (the
remote environment) unchanged. -/
theorem create_table_no_remote_effect (remote : Remote) (table_id schema : Json) :
    BigQuery.create_table remote table_id schema = (remote, [], ()) := rfl

/-- C5: a first construction of the `Config` singleton on an empty slot loads
the backing file and installs itself as the sole instance; any subsequent
construction attempt, whatever its arguments, raises the usage error and
leaves the installed instance in place. -/
theorem config_singleton_contract (fs fs' : FileSys) (fn fn' : String) (doc : Json)
    (inst : ConfigInst) (h : fs fn = some doc) :
    Config.init { slot := none } fn fs =
      ({ slot := some { config_json_filename := fn, data := some doc,
                        debug := some false } },
       Except.ok ())
  ∧ Config.init { slot := some inst } fn' fs' =
      ({ slot := some inst }, Except.error PyError.usageError) := by
  constructor
  · simp [Config.init, h]
  · rfl

/-- Witness for C5: first construction on the scenario file system installs
the instance; a second construction with a different filename raises the
usage error and keeps the installed instance. -/
theorem config_singleton_contract_witness :
    Config.init { slot := none } "config.json" (fun _ => some scenarioDoc) =
      ({ slot := some { config_json_filename := "config.json", data := some scenarioDoc,
                        debug := some false } },
       Except.ok ())
  ∧ Config.init
      { slot := some { config_json_filename := "config.json", data := some scenarioDoc,
                       debug := some false } }
      "other.json" (fun _ => none) =
      ({ slot := some { config_json_filename := "config.json", data := some scenarioDoc,
                        debug := some false } },
       Except.error PyError.usageError) :=
  config_singleton_contract (fun _ => some scenarioDoc) (fun _ => none)
    "config.json" "other.json" scenarioDoc
    { config_json_filename := "config.json", data := some scenarioDoc, debug := some false }
    rfl

/-- C10: `Config.__init__` installs the instance in the singleton slot
before reading the backing file, so a failing first construction leaves the
slot filled with an instance whose `data` attribute was never assigned:
every later construction attempt still raises the already-initialized usage
error, and `instance()` returns the broken instance without retrying the
load. -/
theorem config_init_not_atomic (fs fs' fs2 : FileSys) (fn fn' : String)
    (h : fs fn = none) :
    Config.init { slot := none } fn fs =
      ({ slot := some { config_json_filename := fn, data := none, debug := none } },
       Except.error PyError.fileError)
  ∧ Config.init
      { slot := some { config_json_filename := fn, data := none, debug := none } } fn' fs' =
      ({ slot := some { config_json_filename := fn, data := none, debug := none } },
       Except.error PyError.usageError)
  ∧ Config.getInstance
      { slot := some { config_json_filename := fn, data := none, debug := none } } fs2 =
      ({ slot := some { config_json_filename := fn, data := none, debug := none } },
       Except.ok { config_json_filename := fn, data := none, debug := none }) := by
  refine ⟨?_, rfl, rfl⟩
  simp [Config.init, h]

/-- Witness for C10: a concrete failing first load, followed by a second
construction attempt and an `instance()` call on the resulting state. -/
theorem config_init_not_atomic_witness :
    Config.init { slot := none } "config.json" (fun _ => none) =
      ({ slot := some { config_json_filename := "config.json", data := none,
                        debug := none } },
       Except.error PyError.fileError)
  ∧ Config.init
      { slot := some { config_json_filename := "config.json", data := none, debug := none } }
      "config.json" (fun _ => some scenarioDoc) =
      ({ slot := some { config_json_filename := "config.json", data := none,
                        debug := none } },
       Except.error PyError.usageError)
  ∧ Config.getInstance
      { slot := some { config_json_filename := "config.json", data := none, debug := none } }
      (fun _ => some scenarioDoc) =
      ({ slot := some { config_json_filename := "config.json", data := none,
                        debug := none } },
       Except.ok { config_json_filename := "config.json", data := none, debug := none }) :=
  config_init_not_atomic (fun _ => none) (fun _ => some scenarioDoc)
    (fun _ => some scenarioDoc) "config.json" "config.json" rfl

/-- C2 (failing evaluation): under the documentation's §8 scenario
configuration, constructing the `src/bigquery/table.py` descriptor
`Table('events')` with no overrides succeeds — caching the schema and never
assigning `self.dataset_id` — and the very first `get_dataset_id()` call
then raises `AttributeError('dataset_id')` instead of returning the
configured dataset id `"ds1"`. -/
theorem bq_get_dataset_id_attribute_error :
    (BQTable.init scenarioWorld "events" none none none).2 = Except.ok eventsTableAfterInit
  ∧ (BQTable.get_dataset_id (BQTable.init scenarioWorld "events" none none none).1
       eventsTableAfterInit).2.2 = Except.error (PyError.attributeError "dataset_id") :=
  ⟨rfl, rfl⟩

/-- Every `cfg_item` invocation bumps the lookup counter by exactly one,
whatever it returns. -/
theorem cfg_item_lookups (w : World) (items : List String) :
    (cfg_item w items).1.lookups = w.lookups + 1 := by
  unfold cfg_item
  rcases h : Config.getInstance w.cfg w.fs with ⟨st', r⟩
  cases r with
  | ok inst => cases hd : inst.data <;> simp [hd]
  | error e => simp

/-- C6 (counterexample): constructing the `src/bigquery/table.py` descriptor
`Table('events')` with all optional fields unset performs a configuration
lookup already during construction — the lookup counter rises from 0 to 1 —
because `__init__` calls `attr_columns`, which resolves (and caches) the
schema field immediately rather than on first accessor call. -/
theorem bq_init_config_lookup_counterexample :
    scenarioWorld.lookups = 0
  ∧ (BQTable.init scenarioWorld "events" none none none).1.lookups = 1
  ∧ (BQTable.init scenarioWorld "events" none none none).2 = Except.ok eventsTableAfterInit
  ∧ eventsTableAfterInit.schema =
      some (some (Json.arr (eventsFields.map SchemaFieldR.toJson))) :=
  ⟨rfl, rfl, rfl, rfl⟩

/-- C6 (amended): construction with a schema override performs no
configuration lookup at all; construction with the schema unset performs
exactly one (the schema resolution forced by `attr_columns`); the table id
and location are untouched by construction and are resolved lazily — a set
slot is returned as-is with no lookup and no state change, and an unset slot
is resolved by exactly one `cfg_item` call whose value is cached in the
slot. -/
theorem bq_table_lazy_resolution (w : World) (name : String)
    (tid loc : Option Json) (sch : Json) (t : BQTable) (v : Json) (w' : World) :
    ((BQTable.init w name tid (some sch) loc).1 = w)
  ∧ ((BQTable.init w name tid none loc).1.lookups = w.lookups + 1)
  ∧ (t.table_id = some (some v) → BQTable.get_table_id w t = (w, t, Except.ok v))
  ∧ (t.location = some (some v) → BQTable.get_location w t = (w, t, Except.ok v))
  ∧ (t.schema = some (some v) → BQTable.get_table_schema w t = (w, t, Except.ok v))
  ∧ (t.table_id = some none →
      cfg_item w ["data", "tables", t.table_name, "table_id"] = (w', Except.ok v) →
      BQTable.get_table_id w t =
        (w', { t with table_id := some (some v) }, Except.ok v)
        ∧ w'.lookups = w.lookups + 1)
  ∧ (t.location = some none →
      cfg_item w ["data", "location"] = (w', Except.ok v) →
      BQTable.get_location w t =
        (w', { t with location := some (some v) }, Except.ok v)
        ∧ w'.lookups = w.lookups + 1) := by
  refine ⟨?_, ?_, ?_, ?_, ?_, ?_, ?_⟩
  · unfold BQTable.init BQTable.attr_columns BQTable.get_table_schema
    cases hp : pyIter sch <;> simp [hp]
  · unfold BQTable.init BQTable.attr_columns BQTable.get_table_schema
    rcases h : cfg_item w ["data", "tables", name, "schema"] with ⟨w1, r⟩
    have hl : w1.lookups = w.lookups + 1 := by
      have := cfg_item_lookups w ["data", "tables", name, "schema"]
      rw [h] at this
      exact this
    cases r with
    | ok doc =>
        simp only [h]
        cases pyIter doc <;> simpa using hl
    | error e => simpa [h] using hl
  · intro h; simp [BQTable.get_table_id, h]
  · intro h; simp [BQTable.get_location, h]
  · intro h; simp [BQTable.get_table_schema, h]
  · intro h hc
    have hl : w'.lookups = w.lookups + 1 := by
      have := cfg_item_lookups w ["data", "tables", t.table_name, "table_id"]
      rw [hc] at this
      exact this
    exact ⟨by simp [BQTable.get_table_id, h, hc], hl⟩
  · intro h hc
    have hl : w'.lookups = w.lookups + 1 := by
      have := cfg_item_lookups w ["data", "location"]
      rw [hc] at this
      exact this
    exact ⟨by simp [BQTable.get_location, h, hc], hl⟩

/-- Witness for the amended C6: under the §8 scenario, construction with a
schema override leaves the world untouched; the first `get_table_id` call on
the no-override descriptor resolves `"proj.ds1.events"` from configuration
and caches it; the cached schema is returned without any lookup. -/
theorem bq_table_lazy_resolution_witness :
    (BQTable.init scenarioWorld "events" none
        (some (Json.arr (eventsFields.map SchemaFieldR.toJson))) none).1 = scenarioWorld
  ∧ BQTable.get_table_id scenarioWorld eventsTableAfterInit =
      ((cfg_item scenarioWorld ["data", "tables", "events", "table_id"]).1,
       { eventsTableAfterInit with table_id := some (some (Json.str "proj.ds1.events")) },
       Except.ok (Json.str "proj.ds1.events"))
  ∧ BQTable.get_table_schema scenarioWorld eventsTableAfterInit =
      (scenarioWorld, eventsTableAfterInit,
       Except.ok (Json.arr (eventsFields.map SchemaFieldR.toJson))) := by
  refine ⟨?_, ?_, ?_⟩
  · exact (bq_table_lazy_resolution scenarioWorld "events" none none
      (Json.arr (eventsFields.map SchemaFieldR.toJson)) eventsTableAfterInit
      (Json.str "x") scenarioWorld).1
  · exact ((bq_table_lazy_resolution scenarioWorld "events" none none
      (Json.arr []) eventsTableAfterInit (Json.str "proj.ds1.events")
      (cfg_item scenarioWorld ["data", "tables", "events", "table_id"]).1).2.2.2.2.2.1
      rfl rfl).1
  · exact (bq_table_lazy_resolution scenarioWorld "events" none none
      (Json.arr []) eventsTableAfterInit
      (Json.arr (eventsFields.map SchemaFieldR.toJson)) scenarioWorld).2.2.2.2.1 rfl

/-- C3: whenever the destination dataset probe signals `NotFound`,
`load_data_to_bigquery` creates the dataset with its location set to the
fixed string `"US"`; no dataset creation with any other id or location ever
appears in the operation's remote trace, whatever location the
configuration declares for the descriptor. -/
theorem load_creates_dataset_at_US (w w1 w2 : World) (remote : Remote)
    (df : DataFrame) (t : SrcTable) (dsId tblId : Json)
    (h1 : SrcTable.get_dataset_id w t = (w1, Except.ok dsId))
    (h2 : SrcTable.get_table_id w1 t = (w2, Except.ok tblId))
    (h3 : remote.getDataset dsId = LookupResult.notFound) :
    RemoteCall.createDatasetCall dsId "US" ∈
      (BigQuery.load_data_to_bigquery w remote df t).2.1
  ∧ ∀ d l, RemoteCall.createDatasetCall d l ∈
      (BigQuery.load_data_to_bigquery w remote df t).2.1 → d = dsId ∧ l = "US" := by
  have hjcTr : ∀ s, (BigQuery.job_config remote s tblId).1 =
      [RemoteCall.getTableCall tblId] := by
    intro s
    unfold BigQuery.job_config BigQuery.check_table_exists
    cases hg : remote.getTable tblId <;> simp [hg]
  unfold BigQuery.load_data_to_bigquery
  simp only [h1, h2, h3]
  cases hc : remote.createDataset dsId "US" with
  | error e =>
      constructor
      · simp
      · intro d l hm
        simp at hm
        rcases hm with ⟨hd, hl⟩
        exact ⟨hd, hl⟩
  | ok u =>
      rcases hs : SrcTable.get_table_schema w2 t with ⟨w3, rs⟩
      simp only [hs]
      cases rs with
      | error e =>
          constructor
          · simp
          · intro d l hm
            simp at hm
            rcases hm with ⟨hd, hl⟩
            exact ⟨hd, hl⟩
      | ok sv =>
          rcases hj : BigQuery.job_config remote sv tblId with ⟨jcTr, rj⟩
          have hj1 : jcTr = [RemoteCall.getTableCall tblId] := by
            have := hjcTr sv
            rw [hj] at this
            exact this
          subst hj1
          simp only [hj]
          cases rj with
          | error e =>
              constructor
              · simp
              · intro d l hm
                simp at hm
                rcases hm with ⟨hd, hl⟩
                exact ⟨hd, hl⟩
          | ok cfg =>
              constructor
              · simp
              · intro d l hm
                simp at hm
                rcases hm with ⟨hd, hl⟩
                exact ⟨hd, hl⟩

/-- Witness for C3: under a configuration whose declared location is `"EU"`,
loading into a dataset the remote does not know still creates the dataset at
`"US"`. -/
theorem load_creates_dataset_at_US_witness :
    RemoteCall.createDatasetCall (Json.str "ds1") "US" ∈
      (BigQuery.load_data_to_bigquery (worldWith (scenarioDocAt "EU")) remoteNotFound
        ([] : DataFrame) srcEvents).2.1 :=
  (load_creates_dataset_at_US (worldWith (scenarioDocAt "EU"))
    { worldWith (scenarioDocAt "EU") with lookups := 1 }
    { worldWith (scenarioDocAt "EU") with lookups := 2 }
    remoteNotFound ([] : DataFrame) srcEvents
    (Json.str "ds1") (Json.str "proj.ds1.events") rfl rfl rfl).1

/-- Reading the `type` entry of a well-formed schema field's JSON object. -/
theorem pyIndex_toJson_type (f : SchemaFieldR) :
    pyIndex f.toJson "type" = Except.ok (Json.str f.type) := by
  rcases f with ⟨n, ty, mo, de⟩
  cases de <;> rfl

/-- Reading the `name` entry of a well-formed schema field's JSON object. -/
theorem pyIndex_toJson_name (f : SchemaFieldR) :
    pyIndex f.toJson "name" = Except.ok (Json.str f.name) := by
  rcases f with ⟨n, ty, mo, de⟩
  cases de <;> rfl

/-- The `get_date_columns` loop on a well-formed schema returns exactly the
names of the `DATE`-typed fields, in order. -/
theorem date_columns_loop_spec (fields : List SchemaFieldR) :
    date_columns_loop (fields.map SchemaFieldR.toJson) =
      Except.ok ((fields.filter (fun f => f.type = "DATE")).map
        (fun f => Json.str f.name)) := by
  induction fields with
  | nil => rfl
  | cons f rest ih =>
      simp only [List.map_cons, date_columns_loop, pyIndex_toJson_type, pyIndex_toJson_name]
      by_cases hty : f.type = "DATE"
      · simp [Json.eqStr, hty, ih, List.filter_cons]
      · simp [Json.eqStr, hty, ih, List.filter_cons]

/-- C7: on a schema of well-formed fields of which exactly those in the
filtered sublist have type `DATE`, `get_date_columns` returns exactly those
fields' names, in schema order; when field names are unique within the
schema, the returned names contain no duplicate. -/
theorem get_date_columns_exactly_dates (w : World) (t : BQTable)
    (fields : List SchemaFieldR)
    (h : t.schema = some (some (Json.arr (fields.map SchemaFieldR.toJson)))) :
    BQTable.get_date_columns w t =
      (w, t, Except.ok ((fields.filter (fun f => f.type = "DATE")).map
        (fun f => Json.str f.name)))
  ∧ ((fields.map SchemaFieldR.name).Nodup →
      ((fields.filter (fun f => f.type = "DATE")).map SchemaFieldR.name).Nodup) := by
  constructor
  · have hsc : BQTable.get_table_schema w t =
        (w, t, Except.ok (Json.arr (fields.map SchemaFieldR.toJson))) := by
      simp [BQTable.get_table_schema, h]
    simp [BQTable.get_date_columns, hsc, pyIter, date_columns_loop_spec]
  · intro hnd
    exact hnd.sublist ((List.filter_sublist _).map SchemaFieldR.name)

/-- Witness for C7: the §8 scenario schema (`ts : DATE`, `val : FLOAT`)
yields exactly `["ts"]`, and the returned names are duplicate-free. -/
theorem get_date_columns_exactly_dates_witness :
    BQTable.get_date_columns scenarioWorld eventsTableAfterInit =
      (scenarioWorld, eventsTableAfterInit, Except.ok [Json.str "ts"])
  ∧ ((eventsFields.filter (fun f => f.type = "DATE")).map SchemaFieldR.name).Nodup := by
  have h := get_date_columns_exactly_dates scenarioWorld eventsTableAfterInit eventsFields rfl
  exact ⟨h.1, h.2 (by decide)⟩

/-- `pd.to_datetime` succeeds on a column whose every cell is parseable, and
every cell of the result is date/time-typed. -/
theorem to_datetime_ok (p : String → Option Int) (cells : List Cell)
    (h : ∀ x ∈ cells, Parseable p x) :
    ∃ cells', to_datetime p cells = Except.ok cells'
      ∧ ∀ x ∈ cells', ∃ d, x = Cell.dtVal d := by
  induction cells with
  | nil => exact ⟨[], rfl, by simp⟩
  | cons c rest ih =>
      obtain ⟨cells', hc, hdt⟩ := ih (fun x hx => h x (List.mem_cons_of_mem _ hx))
      cases c with
      | strVal s =>
          obtain ⟨d, hd⟩ := h (Cell.strVal s) (List.mem_cons_self _ _)
          refine ⟨Cell.dtVal d :: cells', ?_, ?_⟩
          · simp [to_datetime, hd, hc]
          · intro x hx
            rcases List.mem_cons.mp hx with hx | hx
            · exact ⟨d, hx⟩
            · exact hdt x hx
      | dtVal d =>
          refine ⟨Cell.dtVal d :: cells', ?_, ?_⟩
          · simp [to_datetime, hc]
          · intro x hx
            rcases List.mem_cons.mp hx with hx | hx
            · exact ⟨d, hx⟩
            · exact hdt x hx

/-- `pd.to_datetime` is the identity on a column whose every cell is already
date/time-typed. -/
theorem to_datetime_id (p : String → Option Int) (cells : List Cell)
    (h : ∀ x ∈ cells, ∃ d, x = Cell.dtVal d) :
    to_datetime p cells = Except.ok cells := by
  induction cells with
  | nil => rfl
  | cons c rest ih =>
      obtain ⟨d, hd⟩ := h c (List.mem_cons_self _ _)
      subst hd
      simp [to_datetime, ih (fun x hx => h x (List.mem_cons_of_mem _ hx))]

/-- Unfolding one step of a column write. -/
theorem setCol_cons (n : String) (v : List Cell) (rest : DataFrame)
    (c : String) (cells : List Cell) :
    DataFrame.setCol ((n, v) :: rest) c cells =
      (if n = c then (c, cells) else (n, v)) :: DataFrame.setCol rest c cells := rfl

/-- Effect of `setCol` on later lookups: the written column reads back as
the written cells (when it was present), other columns are untouched. -/
theorem lookup_setCol (df : DataFrame) (c c' : String) (cells : List Cell) :
    List.lookup c' (DataFrame.setCol df c cells) =
      if c' = c then (List.lookup c' df).map (fun _ => cells)
      else List.lookup c' df := by
  induction df with
  | nil => simp [DataFrame.setCol]
  | cons e rest ih =>
      rcases e with ⟨n, v⟩
      rw [setCol_cons]
      by_cases hn : n = c
      · subst hn
        by_cases hc' : c' = n
        · subst hc'
          have hb : (c' == c') = true := beq_self_eq_true c'
          simp [List.lookup_cons, hb]
        · have hb : (c' == n) = false := beq_eq_false_iff_ne.mpr hc'
          simp [List.lookup_cons, hb, ih, hc']
      · by_cases hc' : c' = n
        · subst hc'
          have hb : (c' == c') = true := beq_self_eq_true c'
          simp [List.lookup_cons, hb, hn]
        · have hb : (c' == n) = false := beq_eq_false_iff_ne.mpr hc'
          simp [List.lookup_cons, hb, ih, hn]

/-- Reading another column after a column write is unchanged. -/
theorem getCol_setCol_other (df : DataFrame) (c c' : String) (cells : List Cell)
    (h : c' ≠ c) :
    DataFrame.getCol (DataFrame.setCol df c cells) c' = DataFrame.getCol df c' := by
  unfold DataFrame.getCol
  rw [lookup_setCol]
  simp [h]

/-- Extracting the underlying association lookup from a successful column
read. -/
theorem lookup_of_getCol (df : DataFrame) (c : String) (cells : List Cell)
    (h : DataFrame.getCol df c = Except.ok cells) :
    List.lookup c df = some cells := by
  unfold DataFrame.getCol at h
  cases hl : List.lookup c df with
  | some v =>
      rw [hl] at h
      simp at h
      rw [h]
  | none => rw [hl] at h; simp at h

/-- Reading a present column after writing it returns the written cells. -/
theorem getCol_setCol_self (df : DataFrame) (c : String) (cells cells0 : List Cell)
    (h : DataFrame.getCol df c = Except.ok cells0) :
    DataFrame.getCol (DataFrame.setCol df c cells) c = Except.ok cells := by
  have hl : List.lookup c df = some cells0 := lookup_of_getCol df c cells0 h
  unfold DataFrame.getCol
  rw [lookup_setCol]
  simp [hl]

/-- A column write preserves the column names. -/
theorem setCol_keys (df : DataFrame) (c : String) (cells : List Cell) :
    (DataFrame.setCol df c cells).map Prod.fst = df.map Prod.fst := by
  unfold DataFrame.setCol
  rw [List.map_map]
  apply List.map_congr_left
  intro e _
  rcases e with ⟨n, v⟩
  by_cases hn : n = c <;> simp [hn]

/-- Writing a column that is absent from the frame changes nothing. -/
theorem setCol_not_mem (df : DataFrame) (c : String) (cells : List Cell)
    (h : c ∉ df.map Prod.fst) : DataFrame.setCol df c cells = df := by
  induction df with
  | nil => rfl
  | cons e rest ih =>
      rcases e with ⟨n, v⟩
      rw [List.map_cons, List.mem_cons] at h
      push_neg at h
      rw [setCol_cons, if_neg (fun hh => h.1 hh.symm), ih h.2]

/-- On a frame with distinct column names, rewriting a column with its own
current cells is the identity. -/
theorem setCol_id (df : DataFrame) (c : String) (cells : List Cell)
    (hnd : (df.map Prod.fst).Nodup) (h : List.lookup c df = some cells) :
    DataFrame.setCol df c cells = df := by
  induction df with
  | nil => simp at h
  | cons e rest ih =>
      rcases e with ⟨n, v⟩
      rw [List.map_cons, List.nodup_cons] at hnd
      by_cases hn : n = c
      · subst hn
        have hb : (n == n) = true := beq_self_eq_true n
        rw [List.lookup_cons] at h
        simp only [hb] at h
        have hv : v = cells := by injection h
        subst hv
        rw [setCol_cons, if_pos rfl, setCol_not_mem rest n v hnd.1]
      · have hb : (c == n) = false := beq_eq_false_iff_ne.mpr (fun hh => hn hh.symm)
        rw [List.lookup_cons] at h
        simp only [hb] at h
        rw [setCol_cons, if_neg hn, ih hnd.2 h]

/-- C8: on a dataset with distinct column names whose named date columns
hold date-parseable (or already date/time-typed) values,
`transform_date_time` succeeds; applying it a second time with the same
column list returns the same dataset unchanged (the values are already
date/time-typed); columns not named in the list keep their values; and the
column names of the result are those of the input.  The final conjunct —
dataset columns already fully date/time-typed stay so — carries the
induction. -/
theorem transform_date_time_idempotent_frame (p : String → Option Int)
    (cols : List String) (df : DataFrame)
    (hnd : (df.map Prod.fst).Nodup)
    (hok : ∀ c ∈ cols, ∃ cells, DataFrame.getCol df c = Except.ok cells
            ∧ ∀ x ∈ cells, Parseable p x) :
    ∃ df', transform_date_time p df cols = Except.ok df'
      ∧ transform_date_time p df' cols = Except.ok df'
      ∧ (∀ c, c ∉ cols → DataFrame.getCol df' c = DataFrame.getCol df c)
      ∧ df'.map Prod.fst = df.map Prod.fst
      ∧ (∀ c cells, DataFrame.getCol df c = Except.ok cells →
          (∀ x ∈ cells, ∃ d, x = Cell.dtVal d) →
          ∃ cells2, DataFrame.getCol df' c = Except.ok cells2
            ∧ ∀ x ∈ cells2, ∃ d, x = Cell.dtVal d) := by
  induction cols generalizing df with
  | nil =>
      exact ⟨df, rfl, rfl, fun c _ => rfl, rfl,
        fun c cells h hdt => ⟨cells, h, hdt⟩⟩
  | cons c rest ih =>
      obtain ⟨cells, hget, hpar⟩ := hok c (List.mem_cons_self _ _)
      obtain ⟨cells', hconv, hdt'⟩ := to_datetime_ok p cells hpar
      have hnd1 : ((DataFrame.setCol df c cells').map Prod.fst).Nodup := by
        rw [setCol_keys]; exact hnd
      have hok1 : ∀ c2 ∈ rest, ∃ cl,
          DataFrame.getCol (DataFrame.setCol df c cells') c2 = Except.ok cl
          ∧ ∀ x ∈ cl, Parseable p x := by
        intro c2 hc2
        by_cases he : c2 = c
        · subst he
          refine ⟨cells', getCol_setCol_self df c2 cells' cells hget, ?_⟩
          intro x hx
          obtain ⟨d, hd⟩ := hdt' x hx
          subst hd
          trivial
        · obtain ⟨cl, hcl, hp⟩ := hok c2 (List.mem_cons_of_mem _ hc2)
          exact ⟨cl, by rw [getCol_setCol_other df c c2 cells' he]; exact hcl, hp⟩
      obtain ⟨df', h1, h2, h3, h4, h5⟩ := ih (DataFrame.setCol df c cells') hnd1 hok1
      have hc1 : DataFrame.getCol (DataFrame.setCol df c cells') c = Except.ok cells' :=
        getCol_setCol_self df c cells' cells hget
      obtain ⟨cells2, hget2, hdt2⟩ := h5 c cells' hc1 hdt'
      refine ⟨df', ?_, ?_, ?_, ?_, ?_⟩
      · simp [transform_date_time, hget, hconv, h1]
      · have hid : to_datetime p cells2 = Except.ok cells2 := to_datetime_id p cells2 hdt2
        have hset : DataFrame.setCol df' c cells2 = df' := by
          apply setCol_id
          · rw [h4, setCol_keys]; exact hnd
          · exact lookup_of_getCol df' c cells2 hget2
        simp [transform_date_time, hget2, hid, hset, h2]
      · intro c2 hc2
        rw [List.mem_cons] at hc2
        push_neg at hc2
        rw [h3 c2 hc2.2, getCol_setCol_other df c c2 cells' hc2.1]
      · rw [h4, setCol_keys]
      · intro c2 cl hcl hdtc
        by_cases he : c2 = c
        · subst he
          have hset2 : DataFrame.getCol (DataFrame.setCol df c2 cells') c2 =
              Except.ok cells' := getCol_setCol_self df c2 cells' cl hcl
          exact h5 c2 cells' hset2 hdt'
        · have hset2 : DataFrame.getCol (DataFrame.setCol df c cells') c2 =
              Except.ok cl := by
            rw [getCol_setCol_other df c c2 cells' he]; exact hcl
          exact h5 c2 cl hset2 hdtc

/-- Witness for C8: a two-column frame with a parseable date column `A` and
an untouched column `B`, transformed on `date_columns = ["A"]`. -/
theorem transform_date_time_idempotent_frame_witness :
    ∃ df', transform_date_time sampleParser
        [("A", [Cell.strVal "2024-01-01"]), ("B", [Cell.strVal "x"])] ["A"] =
        Except.ok df'
      ∧ transform_date_time sampleParser df' ["A"] = Except.ok df'
      ∧ (∀ c, c ∉ ["A"] →
          DataFrame.getCol df' c =
            DataFrame.getCol [("A", [Cell.strVal "2024-01-01"]),
                              ("B", [Cell.strVal "x"])] c)
      ∧ df'.map Prod.fst =
          List.map Prod.fst [("A", [Cell.strVal "2024-01-01"]), ("B", [Cell.strVal "x"])]
      ∧ (∀ c cells,
          DataFrame.getCol [("A", [Cell.strVal "2024-01-01"]), ("B", [Cell.strVal "x"])] c =
            Except.ok cells →
          (∀ x ∈ cells, ∃ d, x = Cell.dtVal d) →
          ∃ cells2, DataFrame.getCol df' c = Except.ok cells2
            ∧ ∀ x ∈ cells2, ∃ d, x = Cell.dtVal d) := by
  apply transform_date_time_idempotent_frame
  · decide
  · intro c hc
    rw [List.mem_singleton] at hc
    subst hc
    refine ⟨[Cell.strVal "2024-01-01"], rfl, ?_⟩
    intro x hx
    rw [List.mem_singleton] at hx
    subst hx
    exact ⟨19723, rfl⟩

end BigQuerySpec
